import Mathlib

/-!
Verification development for the PDF highlight viewer component
(frontend/src/components/PDFHighlightViewer.tsx).  The definitions below are a
shallow embedding of the component: its data model, the per-page highlight
filter and area sort, the overlay geometry, the hover/lock pointer handlers,
the tooltip render condition, the pager buttons, and the scroll-to-issue
effect.  JavaScript numbers that may carry NaN or an infinity are modelled by
the JSNum type with finite values as rationals; timer-based sequencing in the
scroll effect is collapsed to its eventual synchronous outcome for a single
uninterrupted request.
-/

namespace PDFViewer

/-- Model of a JavaScript number stored in a bbox slot: a finite rational, one
of the two infinities, or NaN. -/
inductive JSNum where
  | num (q : ℚ)
  | inf
  | negInf
  | nan
  deriving DecidableEq, Repr

/-- Model of the JavaScript isNaN test used by the bbox validity filter on
line 309: true only for NaN; the infinities pass. -/
def JSNum.isNaNb : JSNum → Bool
  | .nan => true
  | _ => false

/-- Finite rational carried by a slot, if any. -/
def JSNum.toRat : JSNum → Option ℚ
  | .num q => some q
  | _ => none

/-- Severity levels of the Highlight interface (lines 12-27). -/
inductive Severity where
  | critical
  | high
  | medium
  | low
  deriving DecidableEq, Repr

/-- Model of the Highlight record (lines 12-27): page number, optional bbox
array, severity, required issue_type string, optional issue_id, and the
optional code field that the component reads even though the interface does
not declare it (lines 113, 119, 421). -/
structure Highlight where
  page : Nat
  bbox : Option (List JSNum)
  severity : Severity
  issue_type : String
  issue_id : Option String := none
  code : Option String := none
  deriving DecidableEq, Repr

/-- Viewport rectangle of one rendered highlight. -/
structure Rect where
  left : ℚ
  top : ℚ
  width : ℚ
  height : ℚ
  deriving DecidableEq, Repr

/-- Scaled bbox computation of lines 404-409: every corner coordinate is
multiplied by the scale, and width and height are differences of the scaled
corners. -/
def toViewportRect (x0 y0 x1 y1 s : ℚ) : Rect :=
  { left := x0 * s
    top := y0 * s
    width := x1 * s - x0 * s
    height := y1 * s - y0 * s }

/-- Width used for the rendered page (lines 155, 211, 349): the measured
container width when positive, otherwise the fallback 600. -/
def actualPageWidth (pageWidth : ℚ) : ℚ :=
  if pageWidth > 0 then pageWidth else 600

/-- Overlay scale of line 350: the rendered width divided by the constant 595,
the assumed A4 page width in points.  The native width reported by the render
collaborator at page-load completion is not consulted here. -/
def overlayScale (pageWidth : ℚ) : ℚ :=
  actualPageWidth pageWidth / 595

/-- Page height used by the overlay (lines 352, 372-373): the height stored by
onPageLoadSuccess when positive, otherwise the A4 aspect-ratio fallback, so
the overlay is laid out even before any page-render completion. -/
def actualPageHeight (pageWidth pageHeight : ℚ) : ℚ :=
  if pageHeight > 0 then pageHeight else actualPageWidth pageWidth * (842 / 595)

/-- Scaled page height computed by onPageLoadSuccess (lines 208-216) from the
native viewport dimensions reported at page-render completion; storing this
height is the only use the component makes of the reported native width. -/
def onPageLoadSuccessHeight (nativeWidth nativeHeight pageWidth : ℚ) : ℚ :=
  nativeHeight * (actualPageWidth pageWidth / nativeWidth)

/-- Bbox validity check of lines 306-309: the bbox is present, has length 4,
and every entry is a number that is not NaN.  Infinite values pass. -/
def hasValidBbox : Option (List JSNum) → Bool
  | none => false
  | some b => b.length == 4 && b.all (fun v => !v.isNaNb)

/-- Rational value of bbox slot i, reading 0 for a missing or non-finite slot.
For the finite values required by the spec this agrees with the source;
JavaScript sort behaviour on comparator results involving the non-finite
values admitted by the filter is implementation-defined and outside the
model. -/
def bboxVal (h : Highlight) (i : Nat) : ℚ :=
  (((h.bbox.getD []).getD i JSNum.nan).toRat).getD 0

/-- Document-space area of a highlight, from the comparator on lines 325-326. -/
def area (h : Highlight) : ℚ :=
  (bboxVal h 2 - bboxVal h 0) * (bboxVal h 3 - bboxVal h 1)

/-- Enumerated highlight paired with its original sequence index, as built on
line 303; the pair is (idx, highlight). -/
abbrev Entry := Nat × Highlight

/-- Sort relation of the comparator on line 328, which returns
areaB - areaA: entries are ordered by descending area. -/
def areaDesc (a b : Entry) : Bool :=
  decide (area b.2 ≤ area a.2)

/-- Filter predicate of lines 304-320: the bbox is valid and the highlight
page equals the current page. -/
def pageFilter (pageNumber : Nat) (e : Entry) : Bool :=
  hasValidBbox e.2.bbox && e.2.page == pageNumber

/-- Filtered and sorted per-page rendering list of lines 296-329: empty while
the document is loading, while the measured width is zero, and when there are
no highlights; otherwise the enumerated highlights with a valid bbox on the
current page, sorted stably by descending document-space area (JavaScript
sort is stable; modelled by mergeSort). -/
def validHighlights (highlights : List Highlight) (pageNumber : Nat)
    (loading : Bool) (pageWidth : ℚ) : List Entry :=
  if loading || pageWidth == 0 || highlights.isEmpty then []
  else (highlights.enum.filter (pageFilter pageNumber)).mergeSort areaDesc

/-- Large-highlight classification of lines 411-413: the scaled (viewport)
area strictly exceeds 30 percent of the page viewport area. -/
def isLargeHighlight (scaledWidth scaledHeight pw ph : ℚ) : Bool :=
  decide (scaledWidth * scaledHeight > pw * ph * (3 / 10))

/-- Stacking index of a rendered highlight, from line 475. -/
def zIndexFor (lockedFlag hoveredFlag : Bool) (sortedIdx : Nat) : Nat :=
  if lockedFlag then 99999 else if hoveredFlag then 9999 else 1000 + sortedIdx

/-- Truthiness of an optional string under JavaScript rules: undefined and the
empty string are falsy. -/
def truthy : Option String → Bool
  | none => false
  | some s => !(s == "")

/-- Selection state of the component: the hovered index (useState on line 69)
and the locked index (useState on line 76), each a single optional index. -/
structure SelState where
  hovered : Option Nat
  locked : Option Nat
  deriving DecidableEq, Repr

/-- Lock test for one rendered highlight, from lines 415-424: true when the
stored locked index equals this index, or when the highlight stored at the
locked index shares a truthy issue_id, issue_type or code with this one. -/
def isLockedFor (highlights : List Highlight) (locked : Option Nat)
    (idx : Nat) (h : Highlight) : Bool :=
  match locked with
  | none => false
  | some li =>
    li == idx ||
      match highlights[li]? with
      | none => false
      | some lo =>
        (truthy lo.issue_id && lo.issue_id == h.issue_id) ||
        (!(lo.issue_type == "") && lo.issue_type == h.issue_type) ||
        (truthy lo.code && lo.code == h.code) ||
        (!(lo.issue_type == "") && !(h.issue_type == "") &&
          lo.issue_type == h.issue_type)

/-- Pointer-enter handler of a highlight region (lines 489-494): sets the
hovered index unless the highlight is large or lock-identified. -/
def onMouseEnterH (highlights : List Highlight) (s : SelState)
    (idx : Nat) (h : Highlight) (isLarge : Bool) : SelState :=
  if !isLarge && !isLockedFor highlights s.locked idx h then
    { s with hovered := some idx }
  else s

/-- Pointer-leave handler of a highlight region (lines 495-500). -/
def onMouseLeaveH (highlights : List Highlight) (s : SelState)
    (idx : Nat) (h : Highlight) (isLarge : Bool) : SelState :=
  if !isLarge && !isLockedFor highlights s.locked idx h then
    { s with hovered := none }
  else s

/-- Click handler of a highlight region (lines 501-506): ignored for large
highlights; otherwise toggles the lock between none and this index. -/
def onClickH (highlights : List Highlight) (s : SelState)
    (idx : Nat) (h : Highlight) (isLarge : Bool) : SelState :=
  if !isLarge then
    { s with
      locked := if isLockedFor highlights s.locked idx h then none else some idx }
  else s

/-- Pointer-enter handler of a large-highlight corner badge (lines 516-519):
sets the hovered index unconditionally, without consulting the lock.  The
badge installs no click handler; clicks bubble to the region handler above,
which ignores large highlights. -/
def badgeMouseEnter (s : SelState) (idx : Nat) : SelState :=
  { s with hovered := some idx }

/-- Pointer-leave handler of a large-highlight corner badge (lines 520-523). -/
def badgeMouseLeave (s : SelState) : SelState :=
  { s with hovered := none }

/-- Tooltip render condition for one highlight, from line 541: the hovered
index equals the original index of this highlight; the locked state is not
consulted. -/
def tooltipShown (hovered : Option Nat) (idx : Nat) : Bool :=
  hovered == some idx

/-- Number of tooltips rendered over the per-page list. -/
def tooltipCount (valid : List Entry) (hovered : Option Nat) : Nat :=
  (valid.filter fun e => tooltipShown hovered e.1).length

/-- Tooltip anchor of lines 543-551: a fixed viewport position (centered, 50
percent from the left and the top), ignoring the highlight rectangle. -/
def tooltipAnchor (_r : Rect) : ℚ × ℚ :=
  (50, 50)

/-- Prev button handler, from line 586. -/
def prevPageClick (pageNumber : Nat) : Nat :=
  max 1 (pageNumber - 1)

/-- Next button handler, from line 596. -/
def nextPageClick (numPages pageNumber : Nat) : Nat :=
  min numPages (pageNumber + 1)

/-- Identity match of the scroll effect (lines 116-121): any of issue_id,
issue_type or code equals the target string. -/
def scrollMatch (target : String) (h : Highlight) : Bool :=
  h.issue_id == some target || h.issue_type == target || h.code == some target

/-- Index selected by the scroll effect: JavaScript findIndex over the full
highlight sequence, with -1 mapped to none. -/
def findTargetIndex (highlights : List Highlight) (target : String) : Option Nat :=
  highlights.findIdx? (scrollMatch target)

/-- Target page for a found highlight, from line 133: its page field, or 1
when that is zero (the JavaScript falsy fallback). -/
def revealTargetPage (h : Highlight) : Nat :=
  if h.page = 0 then 1 else h.page

/-- Outcome of the scroll-to-issue effect on the observable state: the page
number, the locked index, and the number of onScrollComplete calls. -/
structure RevealResult where
  page : Nat
  locked : Option Nat
  settled : Nat
  deriving DecidableEq, Repr

/-- Eventual outcome of the scroll-to-issue effect (lines 106-195).  The guard
on line 107 returns without invoking the completion callback when the target
is falsy, the highlight list is empty, or the document is still loading.  A
missing match invokes the callback once and changes nothing (lines 123-127).
A found match eventually sets the target page (unclamped, line 133-138), locks
the found index (lines 141, 146) and invokes the callback once (lines 187-192);
the intermediate timers are collapsed to this eventual effect. -/
def scrollToIssueEffect (highlights : List Highlight) (target : String)
    (loading : Bool) (page : Nat) (locked : Option Nat) : RevealResult :=
  if target == "" || highlights.isEmpty || loading then
    { page := page, locked := locked, settled := 0 }
  else
    match highlights.findIdx? (scrollMatch target) with
    | none => { page := page, locked := locked, settled := 1 }
    | some i =>
      match highlights[i]? with
      | none => { page := page, locked := locked, settled := 1 }
      | some h => { page := revealTargetPage h, locked := some i, settled := 1 }

/-- Spec §4.4 selection policy, written from the words of the spec for
comparison with findTargetIndex: an exact stable-id (issue_id) match is
preferred, then an exact category-code (code) match, then an exact free-text
(issue_type) match, ties within one level broken by sequence order. -/
def specPrioritizedSelect (highlights : List Highlight) (target : String) : Option Nat :=
  ((highlights.findIdx? fun h => h.issue_id == some target).orElse fun _ =>
    ((highlights.findIdx? fun h => h.code == some target).orElse fun _ =>
      highlights.findIdx? fun h => h.issue_type == target))

/-! Concrete highlight fixtures used by witnesses and counterexamples. -/

/-- Demo highlight: page 1, bbox of scenario A, critical severity, stable
id A. -/
def hlA : Highlight :=
  ⟨1, some [JSNum.num 100, JSNum.num 200, JSNum.num 300, JSNum.num 250],
    Severity.critical, "missing_contact", some "A", none⟩

/-- Demo highlight on page 1 with identity fields all distinct from hlA. -/
def hlB : Highlight :=
  ⟨1, some [JSNum.num 10, JSNum.num 20, JSNum.num 30, JSNum.num 40],
    Severity.low, "font_issue", some "B", none⟩

/-- Highlight matching the target X only through its free-text issue_type. -/
def typeOnlyHighlight : Highlight :=
  ⟨1, some [JSNum.num 10, JSNum.num 20, JSNum.num 30, JSNum.num 40],
    Severity.high, "X", none, none⟩

/-- Highlight matching the target X through its stable issue_id. -/
def idHighlight : Highlight :=
  ⟨1, some [JSNum.num 50, JSNum.num 60, JSNum.num 70, JSNum.num 80],
    Severity.critical, "font_issue", some "X", none⟩

/-- Full-page highlight used for the large-highlight analysis. -/
def bigHighlight : Highlight :=
  ⟨1, some [JSNum.num 0, JSNum.num 0, JSNum.num 595, JSNum.num 842],
    Severity.critical, "layout", some "L", none⟩

/-- Highlight whose bbox carries positive infinity in slot 2. -/
def infBboxHighlight : Highlight :=
  ⟨1, some [JSNum.num 0, JSNum.num 0, JSNum.inf, JSNum.num 1],
    Severity.critical, "tables", some "T1", none⟩

/-- Highlight whose page field (5) lies outside a 3-page document. -/
def outOfRangeHighlight : Highlight :=
  ⟨5, some [JSNum.num 10, JSNum.num 20, JSNum.num 30, JSNum.num 40],
    Severity.medium, "margin", some "M5", none⟩

/-! Shared helper lemmas. -/

/-- Helper: the rendering list of the singleton demo sequence. -/
theorem validHighlights_hlA_single :
    validHighlights [hlA] 1 false 600 = [(0, hlA)] := by
  have hfilter : List.filter (pageFilter 1) (List.enum [hlA]) = [(0, hlA)] := by
    decide
  unfold validHighlights
  rw [if_neg (by decide), hfilter, List.mergeSort_singleton]

/-- Helper: a successful findIdx? yields the least index satisfying the
predicate. -/
theorem findIdx?_some_spec {α : Type} (p : α → Bool) {l : List α} {i : Nat}
    (hfound : l.findIdx? p = some i) :
    ∃ hlt : i < l.length,
      p (l.get ⟨i, hlt⟩) = true ∧
      ∀ j (hj : j < i), p (l.get ⟨j, hj.trans hlt⟩) = false := by
  have hex : ∃ x ∈ l, p x = true := by
    by_contra hc
    push_neg at hc
    have hnone : l.findIdx? p = none :=
      List.findIdx?_eq_none_iff.mpr fun x hx => by simpa using hc x hx
    rw [hnone] at hfound
    exact Option.noConfusion hfound
  have hidx : l.findIdx p = i := by
    rw [List.findIdx_eq_findIdx?, hfound]
  have hlt : i < l.length := by
    rw [← hidx]
    exact List.findIdx_lt_length_of_exists hex
  obtain ⟨h1, h2⟩ := (List.findIdx_eq hlt).mp hidx
  refine ⟨hlt, ?_, ?_⟩
  · simpa [List.get_eq_getElem] using h1
  · intro j hj
    simpa [List.get_eq_getElem] using h2 j hj

/-- Helper: the original indices carried by the rendering list are pairwise
distinct. -/
theorem validHighlights_fst_nodup (hs : List Highlight) (p : Nat)
    (loading : Bool) (w : ℚ) :
    ((validHighlights hs p loading w).map Prod.fst).Nodup := by
  unfold validHighlights
  split
  · simp
  · have hperm := List.mergeSort_perm (hs.enum.filter (pageFilter p)) areaDesc
    have hsub : ((hs.enum.filter (pageFilter p)).map Prod.fst).Sublist
        (hs.enum.map Prod.fst) := (List.filter_sublist _).map _
    have hnd : ((hs.enum.filter (pageFilter p)).map Prod.fst).Nodup :=
      (List.nodup_enum_map_fst hs).sublist hsub
    exact ((hperm.map Prod.fst).nodup_iff).mpr hnd

/-- Helper: no tooltip is rendered when nothing is hovered, whatever the
locked state holds. -/
theorem tooltipCount_none (valid : List Entry) : tooltipCount valid none = 0 := by
  simp [tooltipCount, tooltipShown]

/-- Helper: exactly one tooltip is rendered when the hovered index occurs in a
list whose original indices are pairwise distinct. -/
theorem tooltipCount_some {valid : List Entry} {i : Nat}
    (hnd : (valid.map Prod.fst).Nodup) (hmem : i ∈ valid.map Prod.fst) :
    tooltipCount valid (some i) = 1 := by
  induction valid with
  | nil => simp at hmem
  | cons a tl ih =>
    simp only [List.map_cons, List.nodup_cons] at hnd
    simp only [List.map_cons, List.mem_cons] at hmem
    rcases hmem with hhead | htl
    · subst hhead
      have hnil : tl.filter (fun e => tooltipShown (some a.1) e.1) = [] := by
        rw [List.filter_eq_nil_iff]
        intro e he hpe
        have heq : a.1 = e.1 := by simpa [tooltipShown] using hpe
        exact hnd.1 (heq ▸ List.mem_map_of_mem Prod.fst he)
      have hp : tooltipShown (some a.1) a.1 = true := by simp [tooltipShown]
      unfold tooltipCount
      rw [List.filter_cons, hp]
      simp [hnil]
    · have hne : i ≠ a.1 := fun he => hnd.1 (he ▸ htl)
      have hp : tooltipShown (some i) a.1 = false := by
        simp [tooltipShown]
        exact hne
      unfold tooltipCount
      rw [List.filter_cons, hp]
      simp only [Bool.false_eq_true, if_false]
      exact ih hnd.2 htl

/-! Claim theorems. -/

/-- C1 counterexample: with a first highlight matching the target only through
its free-text issue_type and a second matching through its stable issue_id,
the code selects index 0 (first sequence-order match on any field) while the
prioritized policy of the claim selects index 1 (a stable-id match outranks a
free-text match); the selection is therefore not determined by the prioritized
match. -/
theorem c1_counterexample :
    findTargetIndex [typeOnlyHighlight, idHighlight] "X" = some 0 ∧
    specPrioritizedSelect [typeOnlyHighlight, idHighlight] "X" = some 1 ∧
    findTargetIndex [typeOnlyHighlight, idHighlight] "X" ≠
      specPrioritizedSelect [typeOnlyHighlight, idHighlight] "X" := by
  refine ⟨by decide, by decide, by decide⟩

/-- C1 amended: the selected highlight is the first in original sequence order
whose issue_id, issue_type or code equals the target exactly, with no priority
among the three identity fields: the selected index matches, and every earlier
index matches on no field. -/
theorem c1_amended (hs : List Highlight) (target : String) (i : Nat)
    (hfound : findTargetIndex hs target = some i) :
    ∃ hlt : i < hs.length,
      scrollMatch target (hs.get ⟨i, hlt⟩) = true ∧
      ∀ j (hj : j < i), scrollMatch target (hs.get ⟨j, hj.trans hlt⟩) = false :=
  findIdx?_some_spec (scrollMatch target) hfound

/-- C1 witness: the amended theorem applied to the singleton sequence whose
only element matches the target through its stable id. -/
theorem c1_witness :
    findTargetIndex [idHighlight] "X" = some 0 ∧
    ∃ hlt : 0 < [idHighlight].length,
      scrollMatch "X" ([idHighlight].get ⟨0, hlt⟩) = true ∧
      ∀ j (hj : j < 0), scrollMatch "X" ([idHighlight].get ⟨j, hj.trans hlt⟩) = false :=
  ⟨by decide, c1_amended [idHighlight] "X" 0 (by decide)⟩

/-- C2 counterexample: with rendered width 600 and a native page width of 612
reported by the render collaborator at render completion, the overlay scale
computed by the code is 600 / 595 (the hardcoded A4 width), not 600 / 612 as
the claim requires. -/
theorem c2_counterexample : overlayScale 600 ≠ 600 / 612 := by
  norm_num [overlayScale, actualPageWidth]

/-- C2 amended: the overlay scale is the rendered width divided by the
constant 595, independent of any reported native width; the native dimensions
reported at render completion only enter through the stored scaled page
height; and before the first render completion the overlay falls back to the
A4 aspect-ratio height instead of treating geometry as unknown. -/
theorem c2_amended (w nw nh : ℚ) (hw : 0 < w) :
    overlayScale w = w / 595 ∧
    onPageLoadSuccessHeight nw nh w = nh * (w / nw) ∧
    actualPageHeight w 0 = w * (842 / 595) := by
  have haw : actualPageWidth w = w := if_pos hw
  refine ⟨?_, ?_, ?_⟩
  · rw [overlayScale, haw]
  · rw [onPageLoadSuccessHeight, haw]
  · rw [actualPageHeight, if_neg (by norm_num), haw]

/-- C2 witness: the amended theorem applied at rendered width 600 with a
native page of 612 by 792 points. -/
theorem c2_witness :
    (0:ℚ) < 600 ∧
    (overlayScale 600 = 600 / 595 ∧
      onPageLoadSuccessHeight 612 792 600 = 792 * (600 / 612) ∧
      actualPageHeight 600 0 = 600 * (842 / 595)) :=
  ⟨by norm_num, c2_amended 600 612 792 (by norm_num)⟩

/-- C3 counterexample: with highlight 0 locked and highlight 1 sharing none of
its identity fields, a pointer-enter on highlight 1 still sets it hovered, so
the lock does not suppress hover transitions for all highlights, and a locked
and a different hovered annotation coexist. -/
theorem c3_counterexample :
    onMouseEnterH [hlA, hlB] ⟨none, some 0⟩ 1 hlB false =
      ⟨some 1, some 0⟩ := by
  decide

/-- C3 amended: hover and lock are each one optional index, but a locked
highlight and a different hovered highlight can coexist; pointer-enter is
suppressed exactly on the highlights the lock predicate identifies with the
locked one; and a click on a non-large lock-identified highlight clears the
lock leaving hover unchanged, returning to the idle state only when nothing is
hovered. -/
theorem c3_amended (hs : List Highlight) (s : SelState) (idx : Nat)
    (h : Highlight) (hlocked : isLockedFor hs s.locked idx h = true) :
    (∀ lg, onMouseEnterH hs s idx h lg = s) ∧
    onClickH hs s idx h false = ⟨s.hovered, none⟩ ∧
    (s.hovered = none → onClickH hs s idx h false = ⟨none, none⟩) := by
  have hclick : onClickH hs s idx h false = ⟨s.hovered, none⟩ := by
    simp [onClickH, hlocked]
  refine ⟨fun lg => ?_, hclick, fun hh => by rw [hclick, hh]⟩
  simp [onMouseEnterH, hlocked]

/-- C3 witness: the amended theorem applied to the demo pair with highlight 0
locked and clicked. -/
theorem c3_witness :
    isLockedFor [hlA, hlB] (some 0) 0 hlA = true ∧
    onClickH [hlA, hlB] ⟨none, some 0⟩ 0 hlA false = ⟨none, none⟩ :=
  ⟨by decide, (c3_amended [hlA, hlB] ⟨none, some 0⟩ 0 hlA (by decide)).2.2 rfl⟩

/-- C4 counterexample: the ordered bbox (-10, 0, 10, 10) at scale 1 yields a
viewport rectangle with negative left, so the four outputs are not all
non-negative as the claim states for every finite ordered bbox. -/
theorem c4_counterexample :
    (-10 : ℚ) < 10 ∧ (0 : ℚ) < 10 ∧ (0 : ℚ) < 1 ∧
    (toViewportRect (-10) 0 10 10 1).left < 0 := by
  refine ⟨by norm_num, by norm_num, by norm_num, ?_⟩
  show (-10 : ℚ) * 1 < 0
  norm_num

/-- C4 amended: toViewportRect multiplies each document-space value by the
scale; width and height are non-negative for every ordered bbox and positive
scale; left and top are non-negative whenever the bbox origin is; and for bbox
[100, 200, 300, 250] at scale 600 / 595 the rectangle lies within 0.1 of
(100.8, 201.7, 201.7, 50.4). -/
theorem c4_amended (x0 y0 x1 y1 s : ℚ) (hx : x0 ≤ x1) (hy : y0 ≤ y1)
    (hs : 0 < s) :
    (toViewportRect x0 y0 x1 y1 s).left = x0 * s ∧
    (toViewportRect x0 y0 x1 y1 s).top = y0 * s ∧
    (toViewportRect x0 y0 x1 y1 s).width = (x1 - x0) * s ∧
    (toViewportRect x0 y0 x1 y1 s).height = (y1 - y0) * s ∧
    0 ≤ (toViewportRect x0 y0 x1 y1 s).width ∧
    0 ≤ (toViewportRect x0 y0 x1 y1 s).height ∧
    (0 ≤ x0 → 0 ≤ (toViewportRect x0 y0 x1 y1 s).left) ∧
    (0 ≤ y0 → 0 ≤ (toViewportRect x0 y0 x1 y1 s).top) ∧
    |(toViewportRect 100 200 300 250 (600 / 595)).left - 1008 / 10| < 1 / 10 ∧
    |(toViewportRect 100 200 300 250 (600 / 595)).top - 2017 / 10| < 1 / 10 ∧
    |(toViewportRect 100 200 300 250 (600 / 595)).width - 2017 / 10| < 1 / 10 ∧
    |(toViewportRect 100 200 300 250 (600 / 595)).height - 504 / 10| < 1 / 10 := by
  have hw : x0 * s ≤ x1 * s := mul_le_mul_of_nonneg_right hx hs.le
  have hh : y0 * s ≤ y1 * s := mul_le_mul_of_nonneg_right hy hs.le
  refine ⟨rfl, rfl, show x1 * s - x0 * s = (x1 - x0) * s from by ring,
    show y1 * s - y0 * s = (y1 - y0) * s from by ring,
    show (0:ℚ) ≤ x1 * s - x0 * s from by linarith,
    show (0:ℚ) ≤ y1 * s - y0 * s from by linarith,
    fun h0 => mul_nonneg h0 hs.le, fun h0 => mul_nonneg h0 hs.le,
    ?_, ?_, ?_, ?_⟩
  all_goals rw [abs_lt]
  all_goals constructor <;> norm_num [toViewportRect]

/-- C4 witness: the amended theorem applied to the scenario bbox at scale
600 / 595. -/
theorem c4_witness :
    (100 : ℚ) ≤ 300 ∧ (200 : ℚ) ≤ 250 ∧ (0 : ℚ) < 600 / 595 ∧
    (toViewportRect 100 200 300 250 (600 / 595)).left = 100 * (600 / 595) :=
  ⟨by norm_num, by norm_num, by norm_num,
    (c4_amended 100 200 300 250 (600 / 595) (by norm_num) (by norm_num)
      (by norm_num)).1⟩

/-- C5 counterexample: a highlight whose bbox carries positive infinity passes
the validity filter (the source checks only isNaN), so the rendering list for
its page contains an entry with a non-finite bbox value, contrary to the claim
that NaN and the infinities are excluded alike. -/
theorem c5_counterexample :
    validHighlights [infBboxHighlight] 1 false 600 = [(0, infBboxHighlight)] ∧
    infBboxHighlight.bbox =
      some [JSNum.num 0, JSNum.num 0, JSNum.inf, JSNum.num 1] := by
  refine ⟨?_, rfl⟩
  have hfilter : List.filter (pageFilter 1) (List.enum [infBboxHighlight]) =
      [(0, infBboxHighlight)] := by decide
  unfold validHighlights
  rw [if_neg (by decide), hfilter, List.mergeSort_singleton]

/-- C5 amended: every entry of the rendering list is on the requested page and
has a present, length-4 bbox containing no NaN (infinite values are not
excluded, because the source tests only isNaN); while the document is loading,
and while the measured width is zero, the list is empty. -/
theorem c5_amended (hs : List Highlight) (p : Nat) (loading : Bool) (w : ℚ)
    (e : Entry) (he : e ∈ validHighlights hs p loading w) :
    (e.2.page = p ∧
      ∃ b, e.2.bbox = some b ∧ b.length = 4 ∧ ∀ v ∈ b, v ≠ JSNum.nan) ∧
    (∀ hs2 p2 w2, validHighlights hs2 p2 true w2 = []) ∧
    (∀ hs2 p2 l2, validHighlights hs2 p2 l2 0 = []) := by
  refine ⟨?_, fun hs2 p2 w2 => by simp [validHighlights],
    fun hs2 p2 l2 => by simp [validHighlights]⟩
  unfold validHighlights at he
  split at he
  · simp at he
  · rw [List.mem_mergeSort, List.mem_filter] at he
    obtain ⟨_, hpred⟩ := he
    rw [pageFilter, Bool.and_eq_true] at hpred
    obtain ⟨hv, hpage⟩ := hpred
    refine ⟨by simpa using hpage, ?_⟩
    cases hb : e.2.bbox with
    | none => rw [hb] at hv; simp [hasValidBbox] at hv
    | some b =>
      rw [hb] at hv
      simp only [hasValidBbox, Bool.and_eq_true, beq_iff_eq,
        List.all_eq_true] at hv
      obtain ⟨hlen, hall⟩ := hv
      refine ⟨b, rfl, hlen, fun v hvb heq => ?_⟩
      have hnan := hall v hvb
      subst heq
      simp [JSNum.isNaNb] at hnan

/-- C5 witness: the amended theorem applied to the singleton demo sequence. -/
theorem c5_witness :
    (0, hlA) ∈ validHighlights [hlA] 1 false 600 ∧
    ((0, hlA) : Entry).2.page = 1 ∧
    ∃ b, ((0, hlA) : Entry).2.bbox = some b ∧ b.length = 4 ∧
      ∀ v ∈ b, v ≠ JSNum.nan := by
  have hmem : (0, hlA) ∈ validHighlights [hlA] 1 false 600 := by
    rw [validHighlights_hlA_single]
    exact List.mem_singleton.mpr rfl
  exact ⟨hmem, (c5_amended [hlA] 1 false 600 (0, hlA) hmem).1⟩

/-- C6 confirmed: any two entries a before b of the sorted rendering list
satisfy area a >= area b in document space, and the baseline stacking index
(neither locked nor hovered) at sorted position i is 1000 + i. -/
theorem c6_sort_zindex (hs : List Highlight) (p : Nat) (loading : Bool)
    (w : ℚ) :
    (validHighlights hs p loading w).Pairwise (fun a b => area b.2 ≤ area a.2) ∧
    ∀ i, zIndexFor false false i = 1000 + i := by
  refine ⟨?_, fun i => rfl⟩
  unfold validHighlights
  split
  · simp
  · have htrans : ∀ a b c : Entry, areaDesc a b = true → areaDesc b c = true →
        areaDesc a c = true := by
      intro a b c hab hbc
      rw [areaDesc, decide_eq_true_eq] at hab hbc ⊢
      exact le_trans hbc hab
    have htotal : ∀ a b : Entry, (areaDesc a b || areaDesc b a) = true := by
      intro a b
      rw [Bool.or_eq_true, areaDesc, areaDesc, decide_eq_true_eq,
        decide_eq_true_eq]
      exact le_total (area b.2) (area a.2)
    exact (List.sorted_mergeSort htrans htotal _).imp
      fun hab => by rwa [areaDesc, decide_eq_true_eq] at hab

/-- C7 code evaluation at the failing input: a full-page highlight at rendered
width 600 is classified large, and the click transition — the only click path,
since the corner badge installs no click handler of its own and the region
click handler is guarded by the large flag, against the comment on line 508
announcing a clickable badge — leaves the lock unchanged, so a click on the
badge of a large highlight never locks it; the badge pointer-enter also sets
hover even while another highlight is locked, departing from the gated
machine of the non-large regions. -/
theorem c7_code_bug :
    isLargeHighlight (toViewportRect 0 0 595 842 (overlayScale 600)).width
      (toViewportRect 0 0 595 842 (overlayScale 600)).height 600
      (actualPageHeight 600 0) = true ∧
    onClickH [bigHighlight] ⟨none, none⟩ 0 bigHighlight true = ⟨none, none⟩ ∧
    badgeMouseEnter ⟨none, some 1⟩ 0 = ⟨some 0, some 1⟩ := by
  refine ⟨?_, rfl, rfl⟩
  rw [isLargeHighlight, decide_eq_true_eq]
  norm_num [toViewportRect, overlayScale, actualPageWidth, actualPageHeight]

/-- C8 counterexample: with an empty highlight sequence no annotation matches
the target, yet the scroll effect returns through the initial guard without
invoking the completion callback, so onSettled is called zero times rather
than exactly once. -/
theorem c8_counterexample :
    scrollToIssueEffect [] "X" false 3 none =
      { page := 3, locked := none, settled := 0 } := by
  decide

/-- C8 amended: when the highlight sequence is non-empty, the target string
non-empty and loading finished, a reveal whose target matches no highlight
invokes the completion callback exactly once and leaves the page and the
locked selection unchanged. -/
theorem c8_amended (hs : List Highlight) (t : String) (page : Nat)
    (locked : Option Nat) (hne : hs ≠ []) (ht : t ≠ "")
    (hnm : ∀ h ∈ hs, scrollMatch t h = false) :
    scrollToIssueEffect hs t false page locked =
      { page := page, locked := locked, settled := 1 } := by
  have hfind : hs.findIdx? (scrollMatch t) = none :=
    List.findIdx?_eq_none_iff.mpr hnm
  unfold scrollToIssueEffect
  rw [if_neg (by simp [ht, hne, List.isEmpty_iff])]
  simp only [hfind]

/-- C8 witness: the amended theorem applied to the singleton demo sequence and
a target matching nothing. -/
theorem c8_witness :
    [hlA] ≠ ([] : List Highlight) ∧ "ZZZ" ≠ "" ∧
    scrollToIssueEffect [hlA] "ZZZ" false 3 none =
      { page := 3, locked := none, settled := 1 } :=
  ⟨by decide, by decide,
    c8_amended [hlA] "ZZZ" 3 none (by decide) (by decide) (by decide)⟩

/-- C9 counterexample: with highlight 0 locked and nothing hovered, the number
of tooltips rendered over a page list containing it is zero, contradicting the
claim that a locked annotation keeps exactly one tooltip pinned while not
hovered; the render condition on line 541 reads only the hovered index. -/
theorem c9_counterexample :
    (SelState.mk none (some 0)).locked = some 0 ∧
    tooltipCount [(0, hlA)] (SelState.mk none (some 0)).hovered = 0 :=
  ⟨rfl, by decide⟩

/-- C9 amended: exactly one tooltip is rendered exactly while a listed
highlight is hovered — one when the hovered index occurs in the per-page list,
zero when nothing is hovered regardless of the locked state — and the tooltip
anchor is a fixed viewport position independent of the source rectangle. -/
theorem c9_amended (hs : List Highlight) (p : Nat) (loading : Bool) (w : ℚ)
    (i : Nat) (hmem : i ∈ (validHighlights hs p loading w).map Prod.fst) :
    tooltipCount (validHighlights hs p loading w) (some i) = 1 ∧
    tooltipCount (validHighlights hs p loading w) none = 0 ∧
    ∀ r r2 : Rect, tooltipAnchor r = tooltipAnchor r2 :=
  ⟨tooltipCount_some (validHighlights_fst_nodup hs p loading w) hmem,
    tooltipCount_none _, fun _ _ => rfl⟩

/-- C9 witness: the amended theorem applied to the singleton demo sequence
with its only entry hovered. -/
theorem c9_witness :
    0 ∈ (validHighlights [hlA] 1 false 600).map Prod.fst ∧
    tooltipCount (validHighlights [hlA] 1 false 600) (some 0) = 1 ∧
    tooltipCount (validHighlights [hlA] 1 false 600) none = 0 ∧
    ∀ r r2 : Rect, tooltipAnchor r = tooltipAnchor r2 := by
  have hmem : 0 ∈ (validHighlights [hlA] 1 false 600).map Prod.fst := by
    rw [validHighlights_hlA_single]
    decide
  exact ⟨hmem, c9_amended [hlA] 1 false 600 0 hmem⟩

/-- C10 counterexample: a reveal whose target highlight carries page 5 in a
3-page document sets the current page to 5, outside the interval [1, 3]; the
reveal page switch performs no clamping. -/
theorem c10_counterexample :
    (scrollToIssueEffect [outOfRangeHighlight] "M5" false 3 none).page = 5 ∧
    ¬((scrollToIssueEffect [outOfRangeHighlight] "M5" false 3 none).page ≤ 3) := by
  refine ⟨by decide, by decide⟩

/-- C10 amended: the pager buttons clamp the page to the interval
[1, pageCount] when starting from an in-bounds page, while the reveal page
switch sets the page to the found highlight's own page field (1 when that is
zero), without clamping. -/
theorem c10_amended (p np : Nat) (hp1 : 1 ≤ p) (hpn : p ≤ np)
    (hs : List Highlight) (t : String) (page : Nat) (locked : Option Nat)
    (i : Nat) (h : Highlight) (ht : t ≠ "")
    (hfound : hs.findIdx? (scrollMatch t) = some i)
    (hget : hs[i]? = some h) :
    (1 ≤ prevPageClick p ∧ prevPageClick p ≤ np ∧
      1 ≤ nextPageClick np p ∧ nextPageClick np p ≤ np) ∧
    scrollToIssueEffect hs t false page locked =
      { page := revealTargetPage h, locked := some i, settled := 1 } := by
  constructor
  · refine ⟨?_, ?_, ?_, ?_⟩ <;> simp only [prevPageClick, nextPageClick] <;> omega
  · have hne : hs ≠ [] := by
      intro hnil
      subst hnil
      simp at hget
    unfold scrollToIssueEffect
    rw [if_neg (by simp [ht, hne, List.isEmpty_iff])]
    simp only [hfound, hget]

/-- C10 witness: the amended theorem applied to a 3-page document on page 2
with a reveal target on page 5. -/
theorem c10_witness :
    (1 : Nat) ≤ 2 ∧ (2 : Nat) ≤ 3 ∧ ("M5" : String) ≠ "" ∧
    [outOfRangeHighlight].findIdx? (scrollMatch "M5") = some 0 ∧
    [outOfRangeHighlight][0]? = some outOfRangeHighlight ∧
    ((1 ≤ prevPageClick 2 ∧ prevPageClick 2 ≤ 3 ∧
      1 ≤ nextPageClick 3 2 ∧ nextPageClick 3 2 ≤ 3) ∧
    scrollToIssueEffect [outOfRangeHighlight] "M5" false 3 none =
      { page := revealTargetPage outOfRangeHighlight, locked := some 0,
        settled := 1 }) :=
  ⟨by decide, by decide, by decide, by decide, by decide,
    c10_amended 2 3 (by decide) (by decide) [outOfRangeHighlight] "M5" 3 none 0
      outOfRangeHighlight (by decide) (by decide) (by decide)⟩

end PDFViewer
